import Mathlib

/-!
Verification of the `try-catch` utility (src/src/index.ts).

The library exports a dispatcher `tryCatch` that runs a zero-argument
callback, converts a raised value into a one-element tuple `[error]` when
the supplied catch conditions match (or when none are supplied), re-raises
it otherwise, and returns `[undefined, value]` on success.  It also exports
a family of classification predicates (`isArrayThrown`, `isErrorThrown`,
`isObjectThrown`, ...) and a factory `createCatchCondition` building an
`instanceof`-based predicate.

We shallowly embed the JavaScript values the code inspects.  A JS object is
modelled by its `Array.isArray` slot, its prototype chain (the list of
class identifiers whose `prototype` objects form the chain, direct
prototype first) and an identity tag.  Standard classes are identified by
fixed numerals (`Object` = 0, `Error` = 1, `Array` = 2); user classes are
any other numerals.  In a standard environment every prototype object owns
a `constructor` property naming its class, so both
`Object.getPrototypeOf v` and `v.constructor` are recovered from the head
of the chain.
-/

/-- A JavaScript runtime value, as far as the predicates of the library
inspect it: the `typeof` category, `Array.isArray`, the prototype chain and
an identity tag distinguishing otherwise equal objects. -/
inductive JSValue where
  | undefined : JSValue
  | null : JSValue
  | boolean : Bool → JSValue
  | number : Nat → JSValue
  | bigint : Nat → JSValue
  | string : String → JSValue
  | symbol : Nat → JSValue
  /-- a callable value; functions are objects, so they carry a prototype
  chain (normally `Function.prototype`, then `Object.prototype`). -/
  | function : List Nat → Nat → JSValue
  /-- a non-callable object: `Array.isArray` slot, prototype chain (class
  ids, direct prototype first), identity tag. -/
  | object : Bool → List Nat → Nat → JSValue
deriving DecidableEq, Repr

/-- Class id of `Object`. -/
def objectClassId : Nat := 0

/-- Class id of `Error`. -/
def errorClassId : Nat := 1

/-- Class id of `Array`. -/
def arrayClassId : Nat := 2

/-- The JavaScript `typeof` operator (note `typeof null` is `"object"`). -/
def jsTypeof : JSValue → String
  | .undefined => "undefined"
  | .null => "object"
  | .boolean _ => "boolean"
  | .number _ => "number"
  | .bigint _ => "bigint"
  | .string _ => "string"
  | .symbol _ => "symbol"
  | .function _ _ => "function"
  | .object _ _ _ => "object"

/-- `Array.isArray`: true exactly for values whose internal array slot is
set (independent of the prototype chain). -/
def jsIsArray : JSValue → Bool
  | .object isArr _ _ => isArr
  | _ => false

/-- `v instanceof C`: `C.prototype` occurs in the prototype chain of `v`.
`instanceof` is false on primitives, `null` and `undefined` and raises on
no input. -/
def jsInstanceOf (v : JSValue) (classId : Nat) : Bool :=
  match v with
  | .object _ chain _ => chain.contains classId
  | .function chain _ => chain.contains classId
  | _ => false

/-- `Object.getPrototypeOf v`, as the class id whose `prototype` object is
the direct prototype of `v` (`none` for a value with no object prototype).
The source only applies it to values already known to be `Error`
instances. -/
def jsGetPrototypeOf : JSValue → Option Nat
  | .object _ chain _ => chain.head?
  | .function chain _ => chain.head?
  | _ => none

/-- `v.constructor`, as a class id: in a standard environment each
prototype object owns a `constructor` property naming its class, so the
lookup resolves at the direct prototype.  The source only reads it under a
`typeof v === "object" && v !== null` guard. -/
def jsConstructorOf : JSValue → Option Nat
  | .object _ chain _ => chain.head?
  | .function chain _ => chain.head?
  | _ => none

/-- `CatchCondition`: a predicate on a captured value. -/
def CatchCondition : Type := JSValue → Bool

/-- `isArrayThrown` (src/src/index.ts): `Array.isArray(error)`. -/
def isArrayThrown (error : JSValue) : Bool :=
  jsIsArray error

/-- `isBigIntThrown`: `typeof error === 'bigint'`. -/
def isBigIntThrown (error : JSValue) : Bool :=
  jsTypeof error == "bigint"

/-- `isBooleanThrown`: `typeof error === 'boolean'`. -/
def isBooleanThrown (error : JSValue) : Bool :=
  jsTypeof error == "boolean"

/-- `isErrorThrown`: `error instanceof Error &&
Object.getPrototypeOf(error) === Error.prototype`. -/
def isErrorThrown (error : JSValue) : Bool :=
  jsInstanceOf error errorClassId && jsGetPrototypeOf error == some errorClassId

/-- `isFunctionThrown`: `typeof error === 'function'`. -/
def isFunctionThrown (error : JSValue) : Bool :=
  jsTypeof error == "function"

/-- `isInstanceOfErrorThrown`: `error instanceof Error`. -/
def isInstanceOfErrorThrown (error : JSValue) : Bool :=
  jsInstanceOf error errorClassId

/-- `isNullThrown`: `error === null`. -/
def isNullThrown (error : JSValue) : Bool :=
  error == JSValue.null

/-- `isNumberThrown`: `typeof error === 'number'`. -/
def isNumberThrown (error : JSValue) : Bool :=
  jsTypeof error == "number"

/-- `isObjectThrown`: `typeof error === 'object' && error !== null &&
error.constructor === Object && Object.getPrototypeOf(error) ===
Object.prototype`. -/
def isObjectThrown (error : JSValue) : Bool :=
  jsTypeof error == "object" && !(error == JSValue.null) &&
    jsConstructorOf error == some objectClassId &&
    jsGetPrototypeOf error == some objectClassId

/-- `isStringThrown`: `typeof error === 'string'`. -/
def isStringThrown (error : JSValue) : Bool :=
  jsTypeof error == "string"

/-- `isSymbolThrown`: `typeof error === 'symbol'`. -/
def isSymbolThrown (error : JSValue) : Bool :=
  jsTypeof error == "symbol"

/-- `isTypeOfObjectThrown`: `typeof error === 'object' && error !== null`. -/
def isTypeOfObjectThrown (error : JSValue) : Bool :=
  jsTypeof error == "object" && !(error == JSValue.null)

/-- `isUndefinedThrown`: `typeof error === 'undefined'`. -/
def isUndefinedThrown (error : JSValue) : Bool :=
  jsTypeof error == "undefined"

/-- `createCatchCondition(ClassName)`: the predicate
`(error) => error instanceof ClassName`. -/
def createCatchCondition (className : Nat) : CatchCondition :=
  fun error => jsInstanceOf error className

/-- `returnCatchAbleErrorOrThrow(error, catchConditions)`: returns the
one-element tuple `[error]` when the condition list is empty or some
condition accepts `error`, and otherwise throws `error` (modelled by
`Except.error`). -/
def returnCatchAbleErrorOrThrow (error : JSValue)
    (catchConditions : List CatchCondition) :
    Except JSValue (List JSValue) :=
  if catchConditions.length = 0 ∨
      catchConditions.any (fun cond => cond error) = true then
    Except.ok [error]
  else
    Except.error error

/-- What the callback passed to `tryCatch` does when invoked: raise
synchronously, return an immediate (non-`Promise`) value, or return a
`Promise` that later fulfills (`Except.ok`) or rejects (`Except.error`). -/
inductive CallbackBehavior where
  | throws : JSValue → CallbackBehavior
  | returnsValue : JSValue → CallbackBehavior
  | returnsPromise : Except JSValue JSValue → CallbackBehavior
deriving Repr

/-- The observable output of a `tryCatch` call: a synchronously returned
result tuple, a returned `Promise` that settles with a result tuple
(`Except.ok`) or a rejection (`Except.error`), or a synchronous re-raise. -/
inductive TryCatchOutput where
  | immediate : List JSValue → TryCatchOutput
  | deferred : Except JSValue (List JSValue) → TryCatchOutput
  | thrown : JSValue → TryCatchOutput
deriving Repr

/-- `tryCatch(fn, catchConditions)`: invoke the callback once; on a
synchronous raise route the value through `returnCatchAbleErrorOrThrow`;
on an immediate value return `[undefined, result]` synchronously; on a
`Promise` return a `Promise` mapping fulfillment to `[undefined, res]` and
routing a rejection through `returnCatchAbleErrorOrThrow` (a throw inside
the `.catch` handler rejects the returned `Promise`). -/
def tryCatch (fn : CallbackBehavior)
    (catchConditions : List CatchCondition) : TryCatchOutput :=
  match fn with
  | .throws e =>
      match returnCatchAbleErrorOrThrow e catchConditions with
      | .ok r => .immediate r
      | .error e2 => .thrown e2
  | .returnsValue v => .immediate [JSValue.undefined, v]
  | .returnsPromise p =>
      .deferred (match p with
        | .ok res => .ok [JSValue.undefined, res]
        | .error e => returnCatchAbleErrorOrThrow e catchConditions)

/-- The result tuple a `tryCatch` call delivers to its caller through the
success channel: the synchronous return, or the value the returned
`Promise` resolves to; `none` when the call instead re-raises or the
`Promise` rejects. -/
def deliveredResult (fn : CallbackBehavior)
    (catchConditions : List CatchCondition) : Option (List JSValue) :=
  match tryCatch fn catchConditions with
  | .immediate r => some r
  | .deferred (.ok r) => some r
  | _ => none

lemma tryCatch_throws_eq (e : JSValue) (cs : List CatchCondition) :
    tryCatch (.throws e) cs =
      (match returnCatchAbleErrorOrThrow e cs with
        | .ok r => .immediate r
        | .error e2 => .thrown e2) := rfl

lemma tryCatch_rejected_eq (e : JSValue) (cs : List CatchCondition) :
    tryCatch (.returnsPromise (.error e)) cs =
      .deferred (returnCatchAbleErrorOrThrow e cs) := rfl

lemma returnCatchAbleErrorOrThrow_ok_of_matched (V : JSValue)
    (cs : List CatchCondition) (h : cs = [] ∨ ∃ c ∈ cs, c V = true) :
    returnCatchAbleErrorOrThrow V cs = Except.ok [V] := by
  unfold returnCatchAbleErrorOrThrow
  rw [if_pos]
  rcases h with h | ⟨c, hc, hcv⟩
  · exact Or.inl (by simp [h])
  · exact Or.inr (List.any_eq_true.mpr ⟨c, hc, hcv⟩)

lemma returnCatchAbleErrorOrThrow_throws_of_unmatched (V : JSValue)
    (cs : List CatchCondition) (hne : cs ≠ []) (hall : ∀ c ∈ cs, c V = false) :
    returnCatchAbleErrorOrThrow V cs = Except.error V := by
  unfold returnCatchAbleErrorOrThrow
  rw [if_neg]
  rintro (h0 | hany)
  · exact hne (List.length_eq_zero.mp h0)
  · obtain ⟨c, hc, hcv⟩ := List.any_eq_true.mp hany
    rw [hall c hc] at hcv
    exact Bool.false_ne_true hcv

/-- C1: for every raised value `V` (raised synchronously or as a rejection
of the returned promise) and every condition list that is empty or has at
least one condition true on `V`, `tryCatch` returns (resp. resolves to)
the one-element tuple `[V]`. -/
theorem tryCatch_matched_catches (V : JSValue) (cs : List CatchCondition)
    (h : cs = [] ∨ ∃ c ∈ cs, c V = true) :
    tryCatch (.throws V) cs = .immediate [V] ∧
    tryCatch (.returnsPromise (.error V)) cs = .deferred (.ok [V]) := by
  have hok := returnCatchAbleErrorOrThrow_ok_of_matched V cs h
  exact ⟨by rw [tryCatch_throws_eq, hok], by rw [tryCatch_rejected_eq, hok]⟩

/-- Witness for C1: raising `null` with no conditions is caught, in both
modes. -/
theorem tryCatch_matched_catches_witness :
    tryCatch (.throws JSValue.null) [] = .immediate [JSValue.null] ∧
    tryCatch (.returnsPromise (.error JSValue.null)) [] =
      .deferred (.ok [JSValue.null]) :=
  tryCatch_matched_catches JSValue.null [] (Or.inl rfl)

/-- C2: for every raised value `V` and every non-empty condition list on
which every condition is false at `V`, `tryCatch` re-raises (immediate
mode) or rejects (deferred mode) with exactly the value `V`, never wrapped,
instead of returning a result tuple. -/
theorem tryCatch_unmatched_propagates (V : JSValue) (cs : List CatchCondition)
    (hne : cs ≠ []) (hall : ∀ c ∈ cs, c V = false) :
    tryCatch (.throws V) cs = .thrown V ∧
    tryCatch (.returnsPromise (.error V)) cs = .deferred (.error V) := by
  have herr := returnCatchAbleErrorOrThrow_throws_of_unmatched V cs hne hall
  exact ⟨by rw [tryCatch_throws_eq, herr], by rw [tryCatch_rejected_eq, herr]⟩

/-- Witness for C2: raising `null` with conditions `[isStringThrown]`
propagates `null` itself, in both modes. -/
theorem tryCatch_unmatched_propagates_witness :
    tryCatch (.throws JSValue.null) [isStringThrown] = .thrown JSValue.null ∧
    tryCatch (.returnsPromise (.error JSValue.null)) [isStringThrown] =
      .deferred (.error JSValue.null) :=
  tryCatch_unmatched_propagates JSValue.null [isStringThrown]
    (by simp)
    (by
      intro c hc
      rw [List.mem_singleton] at hc
      subst hc
      decide)

/-- C3: for every callback that completes successfully, with an immediate
value or a fulfilled promise, and every condition list, `tryCatch` yields
the two-element tuple `[undefined, v]` (synchronously in the first case,
as the resolution of the returned promise in the second), with no
propagation. -/
theorem tryCatch_success_result (v : JSValue) (cs : List CatchCondition) :
    tryCatch (.returnsValue v) cs = .immediate [JSValue.undefined, v] ∧
    tryCatch (.returnsPromise (.ok v)) cs =
      .deferred (.ok [JSValue.undefined, v]) :=
  ⟨rfl, rfl⟩

/-- C4: the execution mode is determined solely by what the callback
produces: a non-promise return value always yields a synchronous
(immediate) result, never a deferred one, and a promise return value
always yields a deferred result — for every condition list. -/
theorem tryCatch_mode_follows_callback (v : JSValue)
    (p : Except JSValue JSValue) (cs : List CatchCondition) :
    (∃ r, tryCatch (.returnsValue v) cs = .immediate r) ∧
    (∃ q, tryCatch (.returnsPromise p) cs = .deferred q) :=
  ⟨⟨[JSValue.undefined, v], rfl⟩, ⟨_, rfl⟩⟩

/-- C10: when the callback completes successfully the condition list is
never consulted: for every two condition lists the outputs of `tryCatch`
coincide, in both the immediate and the fulfilled-promise case. -/
theorem tryCatch_success_ignores_conditions (v : JSValue)
    (cs1 cs2 : List CatchCondition) :
    tryCatch (.returnsValue v) cs1 = tryCatch (.returnsValue v) cs2 ∧
    tryCatch (.returnsPromise (.ok v)) cs1 =
      tryCatch (.returnsPromise (.ok v)) cs2 :=
  ⟨rfl, rfl⟩

lemma returnCatchAbleErrorOrThrow_perm (e : JSValue)
    (cs1 cs2 : List CatchCondition) (h : List.Perm cs1 cs2) :
    returnCatchAbleErrorOrThrow e cs1 = returnCatchAbleErrorOrThrow e cs2 := by
  have hlen : cs1.length = cs2.length := h.length_eq
  have hany : cs1.any (fun cond => cond e) = cs2.any (fun cond => cond e) := by
    rw [Bool.eq_iff_iff, List.any_eq_true, List.any_eq_true]
    exact ⟨fun ⟨c, hc, hv⟩ => ⟨c, h.mem_iff.mp hc, hv⟩,
           fun ⟨c, hc, hv⟩ => ⟨c, h.mem_iff.mpr hc, hv⟩⟩
  unfold returnCatchAbleErrorOrThrow
  rw [hlen, hany]

/-- C8: the caught-versus-propagated outcome of `tryCatch` is invariant
under permutation of the condition list: for every callback behaviour and
every pair of condition lists that are permutations of each other, the two
calls produce the same output. -/
theorem tryCatch_perm_invariant (fn : CallbackBehavior)
    (cs1 cs2 : List CatchCondition) (h : List.Perm cs1 cs2) :
    tryCatch fn cs1 = tryCatch fn cs2 := by
  cases fn with
  | throws e =>
      rw [tryCatch_throws_eq, tryCatch_throws_eq,
        returnCatchAbleErrorOrThrow_perm e cs1 cs2 h]
  | returnsValue v => rfl
  | returnsPromise p =>
      cases p with
      | ok v => rfl
      | error e =>
          rw [tryCatch_rejected_eq, tryCatch_rejected_eq,
            returnCatchAbleErrorOrThrow_perm e cs1 cs2 h]

/-- Witness for C8: swapping a two-condition list leaves the output of
`tryCatch` unchanged on a raised `null`. -/
theorem tryCatch_perm_invariant_witness :
    tryCatch (.throws JSValue.null) [isNullThrown, isStringThrown] =
      tryCatch (.throws JSValue.null) [isStringThrown, isNullThrown] :=
  tryCatch_perm_invariant (.throws JSValue.null)
    [isNullThrown, isStringThrown] [isStringThrown, isNullThrown]
    (List.Perm.swap isStringThrown isNullThrown [])

/-- C9: every result tuple `tryCatch` delivers through its success channel
(synchronously, or as the resolution of the returned promise) satisfies
the sum-type invariant: it is of exactly one of the two shapes
`[undefined, v]` (success: slot 0 present but `undefined`, slot 1 the
value) and `[e]` (failure: slot 0 holds the raised value) — also when the
raised value is itself `undefined` or the success value is `undefined`. -/
theorem tryCatchResult_sum_invariant (fn : CallbackBehavior)
    (cs : List CatchCondition) (r : List JSValue)
    (h : deliveredResult fn cs = some r) :
    ((∃ v, r = [JSValue.undefined, v]) ∧ ¬(∃ e, r = [e])) ∨
    ((∃ e, r = [e]) ∧ ¬(∃ v, r = [JSValue.undefined, v])) := by
  have hshape : (∃ v, r = [JSValue.undefined, v]) ∨ (∃ e, r = [e]) := by
    cases fn with
    | throws e =>
        unfold deliveredResult at h
        rw [tryCatch_throws_eq] at h
        unfold returnCatchAbleErrorOrThrow at h
        by_cases hc : cs.length = 0 ∨ cs.any (fun cond => cond e) = true
        · rw [if_pos hc] at h
          exact Or.inr ⟨e, by simpa using h.symm⟩
        · rw [if_neg hc] at h
          simp at h
    | returnsValue v =>
        have h2 : (some [JSValue.undefined, v] : Option (List JSValue)) =
            some r := h
        exact Or.inl ⟨v, (Option.some.inj h2).symm⟩
    | returnsPromise p =>
        cases p with
        | ok v =>
            have h2 : (some [JSValue.undefined, v] : Option (List JSValue)) =
                some r := h
            exact Or.inl ⟨v, (Option.some.inj h2).symm⟩
        | error e =>
            unfold deliveredResult at h
            rw [tryCatch_rejected_eq] at h
            unfold returnCatchAbleErrorOrThrow at h
            by_cases hc : cs.length = 0 ∨ cs.any (fun cond => cond e) = true
            · rw [if_pos hc] at h
              exact Or.inr ⟨e, by simpa using h.symm⟩
            · rw [if_neg hc] at h
              simp at h
  rcases hshape with ⟨v, hv⟩ | ⟨e, he⟩
  · refine Or.inl ⟨⟨v, hv⟩, ?_⟩
    rintro ⟨e, he⟩
    rw [hv] at he
    simp at he
  · refine Or.inr ⟨⟨e, he⟩, ?_⟩
    rintro ⟨v, hv⟩
    rw [he] at hv
    simp at hv

/-- Witness for C9: raising `undefined` with no conditions delivers the
one-element failure tuple `[undefined]`, which satisfies the invariant. -/
theorem tryCatchResult_sum_invariant_witness :
    ((∃ v, [JSValue.undefined] = [JSValue.undefined, v]) ∧
       ¬(∃ e, ([JSValue.undefined] : List JSValue) = [e])) ∨
    ((∃ e, ([JSValue.undefined] : List JSValue) = [e]) ∧
       ¬(∃ v, [JSValue.undefined] = [JSValue.undefined, v])) :=
  tryCatchResult_sum_invariant (.throws JSValue.undefined) []
    [JSValue.undefined] rfl

lemma jsInstanceOf_object_eq (b : Bool) (chain : List Nat) (tag : Nat)
    (c : Nat) :
    jsInstanceOf (JSValue.object b chain tag) c = decide (c ∈ chain) := by
  simp [jsInstanceOf, List.contains, List.elem_eq_mem]

/-- C5: `isErrorThrown` accepts exactly the plain `Error` instances (direct
prototype is `Error.prototype`) and rejects instances of proper subclasses
of `Error`, while `isInstanceOfErrorThrown` accepts both. -/
theorem isErrorThrown_exact_vs_instanceOf (b : Bool) (chain : List Nat)
    (tag : Nat) :
    (chain.head? = some errorClassId →
      isErrorThrown (JSValue.object b chain tag) = true ∧
      isInstanceOfErrorThrown (JSValue.object b chain tag) = true) ∧
    (∀ c rest, chain = c :: rest → c ≠ errorClassId → errorClassId ∈ rest →
      isErrorThrown (JSValue.object b chain tag) = false ∧
      isInstanceOfErrorThrown (JSValue.object b chain tag) = true) := by
  constructor
  · intro hhead
    have hmem : errorClassId ∈ chain := by
      cases chain with
      | nil => simp at hhead
      | cons c t =>
          simp only [List.head?_cons, Option.some.injEq] at hhead
          rw [hhead]
          exact List.mem_cons_self _ _
    refine ⟨?_, ?_⟩
    · simp [isErrorThrown, jsInstanceOf_object_eq, jsGetPrototypeOf, hhead,
        hmem]
    · simp [isInstanceOfErrorThrown, jsInstanceOf_object_eq, hmem]
  · rintro c rest rfl hne hmem
    refine ⟨?_, ?_⟩
    · simp [isErrorThrown, jsGetPrototypeOf, hne]
    · simp [isInstanceOfErrorThrown, jsInstanceOf_object_eq,
        List.mem_cons_of_mem c hmem]

/-- Witness for C5: a plain `Error` instance (chain `[Error, Object]`) is
accepted by both predicates; an instance of a subclass (chain
`[5, Error, Object]`) is rejected by `isErrorThrown` and accepted by
`isInstanceOfErrorThrown`. -/
theorem isErrorThrown_exact_vs_instanceOf_witness :
    (isErrorThrown (JSValue.object false [errorClassId, objectClassId] 0)
        = true ∧
      isInstanceOfErrorThrown
        (JSValue.object false [errorClassId, objectClassId] 0) = true) ∧
    (isErrorThrown (JSValue.object false [5, errorClassId, objectClassId] 1)
        = false ∧
      isInstanceOfErrorThrown
        (JSValue.object false [5, errorClassId, objectClassId] 1) = true) :=
  ⟨(isErrorThrown_exact_vs_instanceOf false [errorClassId, objectClassId]
      0).1 rfl,
   (isErrorThrown_exact_vs_instanceOf false [5, errorClassId, objectClassId]
      1).2 5 [errorClassId, objectClassId] rfl (by decide) (by decide)⟩

/-- C6: `isObjectThrown` is false for arrays (direct prototype
`Array.prototype`), for class instances (any object whose direct prototype
is not `Object.prototype`, which also covers arrays) and for `null`; it is
true for a plain object, and true only for a non-null object value whose
direct prototype (and hence `constructor`) is `Object`'s. -/
theorem isObjectThrown_classification :
    (∀ tag, isObjectThrown (JSValue.object false [objectClassId] tag)
      = true) ∧
    (∀ rest tag,
      isObjectThrown (JSValue.object true (arrayClassId :: rest) tag)
        = false) ∧
    (∀ b c rest tag, c ≠ objectClassId →
      isObjectThrown (JSValue.object b (c :: rest) tag) = false) ∧
    isObjectThrown JSValue.null = false ∧
    (∀ e, isObjectThrown e = true →
      ∃ b chain tag, e = JSValue.object b chain tag ∧
        chain.head? = some objectClassId) := by
  refine ⟨?_, ?_, ?_, ?_, ?_⟩
  · intro tag
    simp [isObjectThrown, jsTypeof, jsConstructorOf, jsGetPrototypeOf]
  · intro rest tag
    simp [isObjectThrown, jsTypeof, jsConstructorOf, jsGetPrototypeOf,
      arrayClassId, objectClassId]
  · intro b c rest tag hc
    simp [isObjectThrown, jsTypeof, jsConstructorOf, jsGetPrototypeOf, hc]
  · decide
  · intro e he
    cases e with
    | object b chain tag =>
        refine ⟨b, chain, tag, rfl, ?_⟩
        simp [isObjectThrown, jsTypeof, jsConstructorOf,
          jsGetPrototypeOf] at he
        exact he
    | undefined => simp [isObjectThrown, jsTypeof] at he
    | null => simp [isObjectThrown] at he
    | boolean x => simp [isObjectThrown, jsTypeof] at he
    | number x => simp [isObjectThrown, jsTypeof] at he
    | bigint x => simp [isObjectThrown, jsTypeof] at he
    | string x => simp [isObjectThrown, jsTypeof] at he
    | symbol x => simp [isObjectThrown, jsTypeof] at he
    | function x y => simp [isObjectThrown, jsTypeof] at he

/-- Witness for C6: a plain object `\x7b\x7d` is accepted; a standard array and
an `Error` instance are rejected. -/
theorem isObjectThrown_classification_witness :
    isObjectThrown (JSValue.object false [objectClassId] 0) = true ∧
    isObjectThrown (JSValue.object true [arrayClassId, objectClassId] 0)
      = false ∧
    isObjectThrown (JSValue.object false [errorClassId, objectClassId] 0)
      = false :=
  ⟨isObjectThrown_classification.1 0,
   isObjectThrown_classification.2.1 [objectClassId] 0,
   isObjectThrown_classification.2.2.1 false errorClassId [objectClassId] 0
     (by decide)⟩

/-- C7: a predicate built by `createCatchCondition` for class `C` is true
on an object or function value exactly when `C.prototype` occurs in its
prototype chain — so true for direct instances of `C` and for instances of
any subclass of `C` — and false (returning rather than raising, since the
predicate is a total function) on instances of unrelated classes, on
`null`, on `undefined` and on every primitive value. -/
theorem createCatchCondition_spec (C : Nat) :
    (∀ b chain tag,
      createCatchCondition C (JSValue.object b chain tag) = true ↔
        C ∈ chain) ∧
    (∀ chain id,
      createCatchCondition C (JSValue.function chain id) = true ↔
        C ∈ chain) ∧
    createCatchCondition C JSValue.null = false ∧
    createCatchCondition C JSValue.undefined = false ∧
    (∀ x, createCatchCondition C (JSValue.boolean x) = false) ∧
    (∀ x, createCatchCondition C (JSValue.number x) = false) ∧
    (∀ x, createCatchCondition C (JSValue.bigint x) = false) ∧
    (∀ x, createCatchCondition C (JSValue.string x) = false) ∧
    (∀ x, createCatchCondition C (JSValue.symbol x) = false) := by
  refine ⟨?_, ?_, rfl, rfl, fun x => rfl, fun x => rfl, fun x => rfl,
    fun x => rfl, fun x => rfl⟩
  · intro b chain tag
    simp [createCatchCondition, jsInstanceOf, List.contains,
      List.elem_eq_mem]
  · intro chain id
    simp [createCatchCondition, jsInstanceOf, List.contains,
      List.elem_eq_mem]

/-- Witness for C7: the predicate for class 5 accepts a direct instance
(chain `[5, Object]`) and a subclass instance (chain `[7, 5, Object]`),
and rejects an unrelated instance (chain `[6, Object]`), `null`,
`undefined` and a string. -/
theorem createCatchCondition_spec_witness :
    createCatchCondition 5 (JSValue.object false [5, objectClassId] 0)
      = true ∧
    createCatchCondition 5 (JSValue.object false [7, 5, objectClassId] 1)
      = true ∧
    createCatchCondition 5 (JSValue.object false [6, objectClassId] 2)
      = false ∧
    createCatchCondition 5 JSValue.null = false ∧
    createCatchCondition 5 JSValue.undefined = false ∧
    createCatchCondition 5 (JSValue.string "x") = false := by
  have h := createCatchCondition_spec 5
  refine ⟨(h.1 false [5, objectClassId] 0).mpr (by decide),
    (h.1 false [7, 5, objectClassId] 1).mpr (by decide), ?_,
    h.2.2.1, h.2.2.2.1, h.2.2.2.2.2.2.2.1 "x"⟩
  rw [Bool.eq_false_iff]
  intro hx
  exact absurd ((h.1 false [6, objectClassId] 2).mp hx) (by decide)
